import Mathlib

/-!
Verification of the career-advisor core logic: the matching scorer over the
built-in career catalog, the skills-gap differ, the fallback roadmap
generator, and the profile completion calculator, embedded shallowly from
`main.py`.
-/

/-- Character-wise lowercasing, the model of Python's `str.lower()` (all
strings in the program are ASCII, where the two agree). -/
def lowerStr (s : String) : String := ⟨s.data.map Char.toLower⟩

/-- Profile record mirroring the `StudentProfile` dataclass: optional scalar
fields default to `none` and list fields default to `[]`, as in the source. -/
structure StudentProfile where
  name : Option String := none
  age : Option Int := none
  email : Option String := none
  phone : Option String := none
  location : Option String := none
  languages : List String := []
  education_level : Option String := none
  stream : Option String := none
  institution : Option String := none
  academic_performance : Option String := none
  subjects : List String := []
  current_skills : List String := []
  technical_skills : List String := []
  interests : List String := []
  personality_traits : List String := []
  work_environment : List String := []
  salary_expectations : Option String := none
  job_type_preference : List String := []
  location_preference : List String := []
  career_goals : Option String := none
deriving DecidableEq

/-- The default-constructed profile (all fields at their dataclass defaults). -/
def defaultProfile : StudentProfile := {}

/-- The fields of a catalog career entry that the matching logic reads:
title, category, base/adjusted match score and the required-skills list. -/
structure CareerEntry where
  title : String
  category : String
  match_score : Int
  required_skills : List String
deriving DecidableEq

def softwareEngineer : CareerEntry :=
  { title := "Software Engineer"
    category := "Technology"
    match_score := 85
    required_skills := ["Programming", "Data Structures", "Problem Solving", "Software Design"] }

def dataScientist : CareerEntry :=
  { title := "Data Scientist"
    category := "Technology"
    match_score := 80
    required_skills := ["Python", "Statistics", "Machine Learning", "Data Visualization"] }

def digitalMarketingSpecialist : CareerEntry :=
  { title := "Digital Marketing Specialist"
    category := "Sales & Marketing"
    match_score := 75
    required_skills := ["Digital Marketing", "SEO/SEM", "Content Creation", "Analytics"] }

def businessAnalyst : CareerEntry :=
  { title := "Business Analyst"
    category := "Business & Management"
    match_score := 70
    required_skills := ["Business Analysis", "Process Improvement", "Data Analysis", "Communication"] }

def uiUxDesigner : CareerEntry :=
  { title := "UI/UX Designer"
    category := "Creative & Media"
    match_score := 78
    required_skills := ["Design Tools", "User Research", "Prototyping", "Visual Design"] }

/-- The hard-coded catalog `all_careers` of `get_sample_careers`. -/
def allCareers : List CareerEntry :=
  [softwareEngineer, dataScientist, digitalMarketingSpecialist, businessAnalyst, uiUxDesigner]

/-- Score adjustment of one catalog entry, translated from the loop body of
`get_sample_careers`: a skill-overlap bonus of 5 per common lowercased skill
(Python `set` intersection rendered as `Finset` intersection) when the
profile has technical skills, a +10 bonus when the entry's category matches
an interest case-insensitively, then `min(match_score, 100)`. -/
def adjustScore (p : StudentProfile) (c : CareerEntry) : Int :=
  let ms := c.match_score
  let ms :=
    if p.technical_skills ≠ [] then
      let career_skills := c.required_skills.map lowerStr
      let student_skills := p.technical_skills.map lowerStr
      let skill_overlap := (career_skills.toFinset ∩ student_skills.toFinset).card
      if skill_overlap > 0 then ms + skill_overlap * 5 else ms
    else ms
  let ms :=
    if p.interests ≠ [] then
      if lowerStr c.category ∈ p.interests.map lowerStr then ms + 10 else ms
    else ms
  min ms 100

/-- Number of distinct lowercased required skills of the entry that the
profile's lowercased technical skills contain: the `skill_overlap` quantity. -/
def skillOverlap (p : StudentProfile) (c : CareerEntry) : Nat :=
  ((c.required_skills.map lowerStr).toFinset ∩
    (p.technical_skills.map lowerStr).toFinset).card

/-- The interest-category bonus of the scorer: 10 when the entry's lowercased
category occurs among the profile's lowercased interests, else 0. -/
def categoryBonus (p : StudentProfile) (c : CareerEntry) : Int :=
  if lowerStr c.category ∈ p.interests.map lowerStr then 10 else 0

/-- Descending comparison on adjusted scores, the key order of the final
`all_careers.sort(key=..., reverse=True)`. -/
def byScoreDesc (a b : CareerEntry) : Prop := b.match_score ≤ a.match_score

instance : DecidableRel byScoreDesc :=
  fun a b => inferInstanceAs (Decidable (b.match_score ≤ a.match_score))

instance : IsTotal CareerEntry byScoreDesc := ⟨fun a b => le_total b.match_score a.match_score⟩

instance : IsTrans CareerEntry byScoreDesc := ⟨fun _ _ _ h1 h2 => le_trans h2 h1⟩

/-- The catalog entry with its score replaced by the adjusted score, as the
loop mutates `career["match_score"]` in place. -/
def adjustEntry (p : StudentProfile) (c : CareerEntry) : CareerEntry :=
  { c with match_score := adjustScore p c }

/-- `get_sample_careers`: adjust every entry of the catalog, sort descending
by adjusted score (Python's stable sort, modelled by insertion sort that
keeps earlier elements first on ties), and take the first 6. -/
def get_sample_careers (p : StudentProfile) : List CareerEntry :=
  ((allCareers.map (adjustEntry p)).insertionSort byScoreDesc).take 6

/-- The profile of the spec's §8 scenario: two technical skills and the
single interest `"Technology"`. -/
def scenarioProfile : StudentProfile :=
  { defaultProfile with
    technical_skills := ["Programming (Python)", "Data Analysis"]
    interests := ["Technology"] }

/-- C1: the branching of the scorer collapses to the closed formula
`min 100 (base + 5 * overlap + category bonus)`; empty skill and interest
lists contribute no bonus, and adjusted scores of catalog entries stay in
`[0, 100]`. -/
theorem adjustScore_formula_and_bounds (p : StudentProfile) (c : CareerEntry)
    (hc : c ∈ allCareers) :
    adjustScore p c = min 100 (c.match_score + 5 * (skillOverlap p c : Int) + categoryBonus p c)
    ∧ (p.technical_skills = [] → p.interests = [] → adjustScore p c = c.match_score)
    ∧ 0 ≤ adjustScore p c ∧ adjustScore p c ≤ 100 := by
  have hbase : 0 ≤ c.match_score ∧ c.match_score ≤ 100 := by
    simp only [allCareers, List.mem_cons, List.mem_singleton, List.not_mem_nil, or_false] at hc
    rcases hc with rfl | rfl | rfl | rfl | rfl <;> constructor <;> decide
  have hform : adjustScore p c
      = min 100 (c.match_score + 5 * (skillOverlap p c : Int) + categoryBonus p c) := by
    simp only [adjustScore, skillOverlap, categoryBonus]
    rcases eq_or_ne p.technical_skills [] with h1 | h1
    · have hcard : ((c.required_skills.map lowerStr).toFinset ∩
          (p.technical_skills.map lowerStr).toFinset).card = 0 := by
        rw [h1]; simp
      rw [if_neg (not_not_intro h1), hcard]
      rcases eq_or_ne p.interests [] with h2 | h2
      · have hmem : ¬ lowerStr c.category ∈ p.interests.map lowerStr := by simp [h2]
        rw [if_neg (not_not_intro h2), if_neg hmem]
        omega
      · rw [if_pos h2]
        split_ifs <;> omega
    · rw [if_pos h1]
      rcases eq_or_ne p.interests [] with h2 | h2
      · have hmem : ¬ lowerStr c.category ∈ p.interests.map lowerStr := by simp [h2]
        rw [if_neg (not_not_intro h2), if_neg hmem]
        split_ifs <;> omega
      · rw [if_pos h2]
        split_ifs <;> omega
  refine ⟨hform, fun h1 h2 => ?_, ?_, ?_⟩
  · simp [adjustScore, h1, h2]
    omega
  · rw [hform]
    have hcb : categoryBonus p c = 10 ∨ categoryBonus p c = 0 := by
      unfold categoryBonus; split_ifs <;> simp
    rcases hcb with h | h <;> omega
  · rw [hform]
    omega

/-- Witness for C1 at the empty profile and the first catalog entry. -/
theorem adjustScore_formula_and_bounds_witness :
    adjustScore defaultProfile softwareEngineer
      = min 100 (softwareEngineer.match_score
          + 5 * (skillOverlap defaultProfile softwareEngineer : Int)
          + categoryBonus defaultProfile softwareEngineer)
    ∧ adjustScore defaultProfile softwareEngineer = softwareEngineer.match_score
    ∧ 0 ≤ adjustScore defaultProfile softwareEngineer
    ∧ adjustScore defaultProfile softwareEngineer ≤ 100 :=
  have h := adjustScore_formula_and_bounds defaultProfile softwareEngineer (by decide)
  ⟨h.1, h.2.1 rfl rfl, h.2.2⟩

/-- Inserting into a list leaves the sublist of elements of any one adjusted
score unchanged, because an element can only be placed past strictly larger
scores. -/
theorem filter_orderedInsert_score (P : CareerEntry → Bool)
    (hP : ∀ a b, P a = true → P b = true → byScoreDesc a b)
    (a : CareerEntry) (l : List CareerEntry) :
    (l.orderedInsert byScoreDesc a).filter P = ((a :: l).filter P) := by
  induction l with
  | nil => rfl
  | cons b l ih =>
    simp only [List.orderedInsert]
    split_ifs with h
    · rfl
    · have hnot : ¬(P a = true ∧ P b = true) := fun ⟨ha', hb'⟩ => h (hP a b ha' hb')
      rcases hPb : P b with _ | _
      · rcases hPa : P a with _ | _ <;>
          simp [List.filter_cons, hPa, hPb, ih]
      · have hPa : P a = false := by
          rcases hPa : P a with _ | _
          · rfl
          · exact absurd ⟨hPa, hPb⟩ hnot
        simp [List.filter_cons, hPa, hPb, ih]

/-- Stability of the modelled sort: for every score value, the sorted list
restricted to that score is the input restricted to that score. -/
theorem filter_insertionSort_score (P : CareerEntry → Bool)
    (hP : ∀ a b, P a = true → P b = true → byScoreDesc a b)
    (l : List CareerEntry) :
    (l.insertionSort byScoreDesc).filter P = l.filter P := by
  induction l with
  | nil => rfl
  | cons a l ih =>
    rw [List.insertionSort, filter_orderedInsert_score P hP, List.filter_cons,
      List.filter_cons, ih]

/-- C2: the recommendation list has length `min 6 |catalog|`, is sorted
non-increasingly by adjusted score, and entries of equal adjusted score keep
their catalog order (the sublist at each score value is preserved). -/
theorem get_sample_careers_sorted_stable (p : StudentProfile) :
    (get_sample_careers p).length = min 6 allCareers.length
    ∧ (get_sample_careers p).Sorted byScoreDesc
    ∧ ∀ k : Int, (get_sample_careers p).filter (fun c => c.match_score == k)
        = (allCareers.map (adjustEntry p)).filter (fun c => c.match_score == k) := by
  have hlen5 : (allCareers.map (adjustEntry p)).length = 5 := by
    simp [allCareers]
  have htake : ((allCareers.map (adjustEntry p)).insertionSort byScoreDesc).take 6
      = (allCareers.map (adjustEntry p)).insertionSort byScoreDesc :=
    List.take_of_length_le (by rw [List.length_insertionSort, hlen5]; norm_num)
  refine ⟨?_, ?_, fun k => ?_⟩
  · rw [get_sample_careers, List.length_take, List.length_insertionSort, hlen5]
    simp [allCareers]
  · rw [get_sample_careers, htake]
    exact List.sorted_insertionSort byScoreDesc _
  · rw [get_sample_careers, htake]
    refine filter_insertionSort_score _ (fun a b ha hb => ?_) _
    have ha' : a.match_score = k := by simpa using ha
    have hb' : b.match_score = k := by simpa using hb
    unfold byScoreDesc
    rw [ha', hb']

/-- C3 fails on the code: the scenario profile's skills overlap with neither
the Software Engineer nor the Data Scientist required-skill sets (the
intersection is exact-match on lowercased strings), so the Data Scientist
entry gets only the +10 category bonus and lands at exactly 90, not above. -/
theorem scenario_counterexample :
    skillOverlap scenarioProfile softwareEngineer = 0
    ∧ skillOverlap scenarioProfile dataScientist = 0
    ∧ adjustScore scenarioProfile dataScientist = 90
    ∧ ¬ adjustScore scenarioProfile dataScientist > 90 := by decide

/-- C3 amended: both entries receive the +10 category bonus and a zero
skill-overlap bonus; the Software Engineer entry is adjusted to 95 (above
90) and the Data Scientist entry to exactly 90. -/
theorem scenario_scores :
    categoryBonus scenarioProfile softwareEngineer = 10
    ∧ categoryBonus scenarioProfile dataScientist = 10
    ∧ skillOverlap scenarioProfile softwareEngineer = 0
    ∧ skillOverlap scenarioProfile dataScientist = 0
    ∧ adjustScore scenarioProfile softwareEngineer = 95
    ∧ adjustScore scenarioProfile dataScientist = 90 := by decide

/-- Result of the skills-gap comparison of `render_skills_analysis`: Python
sets modelled as `Finset`s of strings. -/
structure SkillsGap where
  matching : Finset String
  missing : Finset String
  extra : Finset String
deriving DecidableEq

/-- The skills-gap differ: `current_set ∩ required_set`,
`required_set - current_set` and `current_set - required_set`, with the two
input lists converted to sets first (comparison is case-sensitive). -/
def skillsGap (current_skills required_skills : List String) : SkillsGap :=
  let current_set := current_skills.toFinset
  let required_set := required_skills.toFinset
  { matching := current_set ∩ required_set
    missing := required_set \ current_set
    extra := current_set \ required_set }

/-- The match percentage of the skills-analysis page:
`len(matching) / len(required_skills) * 100` guarded by the emptiness of the
required-skills list. -/
def matchPercentage (current_skills required_skills : List String) : ℚ :=
  if required_skills ≠ [] then
    ((skillsGap current_skills required_skills).matching.card : ℚ)
      / (required_skills.length : ℚ) * 100
  else 0

/-- C5: the three parts of the gap recompose the inputs —
matched ∪ missing is the required set, matched ∪ extra is the current set,
and the three parts are pairwise disjoint. -/
theorem skillsGap_partition (current_skills required_skills : List String) :
    (skillsGap current_skills required_skills).matching
        ∪ (skillsGap current_skills required_skills).missing
      = required_skills.toFinset
    ∧ (skillsGap current_skills required_skills).matching
        ∪ (skillsGap current_skills required_skills).extra
      = current_skills.toFinset
    ∧ Disjoint (skillsGap current_skills required_skills).matching
        (skillsGap current_skills required_skills).missing
    ∧ Disjoint (skillsGap current_skills required_skills).matching
        (skillsGap current_skills required_skills).extra
    ∧ Disjoint (skillsGap current_skills required_skills).missing
        (skillsGap current_skills required_skills).extra := by
  refine ⟨?_, ?_, ?_, ?_, ?_⟩ <;>
    simp only [skillsGap, Finset.disjoint_left] <;>
      first
        | (ext x; simp only [Finset.mem_union, Finset.mem_inter, Finset.mem_sdiff]; tauto)
        | (intro x hx hy;
            simp only [Finset.mem_inter, Finset.mem_sdiff] at hx hy; tauto)

/-- C6: the percentage is 0 whenever the required list is empty (the division
is guarded), and otherwise equals matched-count over required-set-size times
100, the list length agreeing with the set size on duplicate-free input. -/
theorem matchPercentage_spec (current_skills required_skills : List String) :
    (required_skills = [] → matchPercentage current_skills required_skills = 0)
    ∧ (required_skills ≠ [] → required_skills.Nodup →
        matchPercentage current_skills required_skills
          = ((skillsGap current_skills required_skills).matching.card : ℚ)
              / (required_skills.toFinset.card : ℚ) * 100) := by
  constructor
  · intro h
    rw [matchPercentage, if_neg (not_not_intro h)]
  · intro h hnd
    rw [matchPercentage, if_pos h, List.toFinset_card_of_nodup hnd]

/-- Witness for C6 at the spec's §8 scenario lists and at an empty required
list. -/
theorem matchPercentage_spec_witness :
    matchPercentage ["Programming"] ["Programming", "Statistics", "Data Analysis"]
      = ((skillsGap ["Programming"] ["Programming", "Statistics", "Data Analysis"]).matching.card : ℚ)
          / ((["Programming", "Statistics", "Data Analysis"] : List String).toFinset.card : ℚ) * 100
    ∧ matchPercentage ["Programming"] [] = 0 :=
  ⟨(matchPercentage_spec ["Programming"] ["Programming", "Statistics", "Data Analysis"]).2
      (by decide) (by decide),
    (matchPercentage_spec ["Programming"] []).1 rfl⟩

/-- One phase record of the fallback roadmap. -/
structure RoadmapPhase where
  title : String
  duration : String
  objective : String
  skills_to_learn : List String
  activities : List String
  milestones : List String
deriving DecidableEq

/-- The roadmap as the claims read it: its ordered phase list. -/
structure Roadmap where
  phases : List RoadmapPhase
deriving DecidableEq

/-- Python's list slice `l[a:b]` for already-clamped bounds. -/
def pySlice (l : List α) (a b : Nat) : List α := (l.take b).drop a

/-- `skills_to_learn`: the required skills not already among the current
skills, in required-skills order. -/
def skillsToLearn (current_skills required_skills : List String) : List String :=
  required_skills.filter (fun s => decide (s ∉ current_skills))

/-- The timeframe lookup of `generate_fallback_roadmap`: phase count and
phase duration label, with a default branch for unrecognized values. -/
def timeframeParams (timeframe : String) : Nat × String :=
  if timeframe = "6 months" then (3, "2 months")
  else if timeframe = "1 year" then (4, "3 months")
  else if timeframe = "2 years" then (6, "4 months")
  else (8, "4-5 months")

/-- `skills_per_phase = max(1, len(skills_to_learn) // num_phases) if
skills_to_learn else 1`. -/
def skillsPerPhase (skills_to_learn : List String) (num_phases : Nat) : Nat :=
  if skills_to_learn ≠ [] then max 1 (skills_to_learn.length / num_phases) else 1

/-- The fallback roadmap generator, translated from
`generate_fallback_roadmap`: resolve the timeframe, compute the skill
deficit, and emit one phase per index with an index-sliced skill chunk,
positional title/objective and fixed activity and milestone templates. -/
def generate_fallback_roadmap (current_skills required_skills : List String)
    (timeframe : String) : Roadmap :=
  let skills_to_learn := skillsToLearn current_skills required_skills
  let num_phases := (timeframeParams timeframe).1
  let phase_duration := (timeframeParams timeframe).2
  let skills_per_phase := skillsPerPhase skills_to_learn num_phases
  let phases := (List.range num_phases).map (fun i =>
    let start_idx := i * skills_per_phase
    let end_idx := min ((i + 1) * skills_per_phase) skills_to_learn.length
    let phase_skills :=
      if skills_to_learn ≠ [] then pySlice skills_to_learn start_idx end_idx else []
    { title :=
        if i = 0 then "Foundation Building"
        else if i = num_phases - 1 then "Advanced Skills & Specialization"
        else "Skill Development Phase " ++ toString i
      duration := phase_duration
      objective :=
        if i = 0 then "Build fundamental skills and knowledge base"
        else if i = num_phases - 1 then
          "Master advanced concepts and specialize in your chosen area"
        else "Develop intermediate skills and practical experience"
      skills_to_learn := phase_skills
      activities := ["Online courses and tutorials", "Hands-on projects",
        "Practice and application", "Community participation"]
      milestones := ["Complete " ++ toString phase_skills.length ++ " skill modules",
        "Build 1-2 practical projects", "Join relevant communities",
        "Update portfolio/resume"] })
  { phases := phases }

/-- A chunk slice `stl[i*spp : min((i+1)*spp, len)]` is the `spp`-element
window starting at `i*spp`. -/
theorem pySlice_chunk (stl : List String) (spp i : Nat) :
    pySlice stl (i * spp) (min ((i + 1) * spp) stl.length)
      = (stl.drop (i * spp)).take spp := by
  unfold pySlice
  have h1 : stl.take (min ((i + 1) * spp) stl.length) = stl.take ((i + 1) * spp) := by
    rcases le_total ((i + 1) * spp) stl.length with h | h
    · rw [min_eq_left h]
    · rw [min_eq_right h, List.take_length, List.take_of_length_le h]
  have h2 : (i + 1) * spp = i * spp + spp := by ring
  rw [h1, h2, List.drop_take, Nat.add_sub_cancel_left]

/-- Concatenating the `n` successive `spp`-element windows of a list yields
its first `n * spp` elements. -/
theorem join_chunks (stl : List String) (spp : Nat) (n : Nat) :
    ((List.range n).map (fun i => (stl.drop (i * spp)).take spp)).flatten
      = stl.take (n * spp) := by
  induction n with
  | zero => simp
  | succ n ih =>
    rw [List.range_succ, List.map_append, List.flatten_append]
    simp only [List.map_cons, List.map_nil, List.flatten_cons, List.flatten_nil, List.append_nil]
    rw [ih, Nat.succ_mul, List.take_add]

/-- C4 amended: the deficit list is the required list minus the current
skills; the phases' skill lists are index slices whose concatenation is the
first `num_phases * skills_per_phase` elements of the deficit list, so every
deficit skill lands in exactly one phase precisely when the deficit is no
longer than `num_phases * skills_per_phase` — longer tails are dropped. -/
theorem roadmap_phase_skills_cover (current_skills required_skills : List String)
    (timeframe : String) :
    skillsToLearn current_skills required_skills
        = required_skills.filter (fun s => decide (s ∉ current_skills))
    ∧ ((generate_fallback_roadmap current_skills required_skills timeframe).phases.map
          (fun ph => ph.skills_to_learn)).flatten
        = (skillsToLearn current_skills required_skills).take
            ((timeframeParams timeframe).1
              * skillsPerPhase (skillsToLearn current_skills required_skills)
                  (timeframeParams timeframe).1)
    ∧ ((skillsToLearn current_skills required_skills).length
          ≤ (timeframeParams timeframe).1
              * skillsPerPhase (skillsToLearn current_skills required_skills)
                  (timeframeParams timeframe).1 →
        ((generate_fallback_roadmap current_skills required_skills timeframe).phases.map
            (fun ph => ph.skills_to_learn)).flatten
          = skillsToLearn current_skills required_skills) := by
  have hjoin : ((generate_fallback_roadmap current_skills required_skills timeframe).phases.map
        (fun ph => ph.skills_to_learn)).flatten
      = (skillsToLearn current_skills required_skills).take
          ((timeframeParams timeframe).1
            * skillsPerPhase (skillsToLearn current_skills required_skills)
                (timeframeParams timeframe).1) := by
    simp only [generate_fallback_roadmap, List.map_map, Function.comp]
    rcases eq_or_ne (skillsToLearn current_skills required_skills) [] with h | h
    · simp [h, skillsPerPhase]
    · simp only [if_pos h, pySlice_chunk]
      exact join_chunks _ _ _
  exact ⟨rfl, hjoin, fun hle => by rw [hjoin, List.take_of_length_le hle]⟩

/-- Witness for C4 at a three-skill deficit over four phases, where the
chunks do cover the whole deficit. -/
theorem roadmap_phase_skills_cover_witness :
    ((generate_fallback_roadmap [] ["a", "b", "c"] "1 year").phases.map
        (fun ph => ph.skills_to_learn)).flatten = skillsToLearn [] ["a", "b", "c"] :=
  (roadmap_phase_skills_cover [] ["a", "b", "c"] "1 year").2.2 (by decide)

/-- C4 fails as stated: with a seven-skill deficit and three phases the
chunk size is 2, so the seventh skill appears in no phase at all. -/
theorem roadmap_drops_tail_counterexample :
    "g" ∈ skillsToLearn [] ["a", "b", "c", "d", "e", "f", "g"]
    ∧ ((generate_fallback_roadmap [] ["a", "b", "c", "d", "e", "f", "g"] "6 months").phases.map
        (fun ph => ph.skills_to_learn)).flatten.count "g" = 0 := by decide

/-- C7: the timeframe table resolves exactly as specified, any unrecognized
value falls to the 8-phase default, and the generated roadmap has exactly
the resolved number of phases. -/
theorem timeframe_lookup (t : String) :
    timeframeParams "6 months" = (3, "2 months")
    ∧ timeframeParams "1 year" = (4, "3 months")
    ∧ timeframeParams "2 years" = (6, "4 months")
    ∧ (t ≠ "6 months" → t ≠ "1 year" → t ≠ "2 years" →
        timeframeParams t = (8, "4-5 months"))
    ∧ ∀ current_skills required_skills : List String,
        (generate_fallback_roadmap current_skills required_skills t).phases.length
          = (timeframeParams t).1 := by
  refine ⟨rfl, rfl, rfl, fun h1 h2 h3 => ?_, fun cur req => ?_⟩
  · rw [timeframeParams, if_neg h1, if_neg h2, if_neg h3]
  · simp [generate_fallback_roadmap]

/-- Witness for C7 at an unrecognized timeframe and a recognized one. -/
theorem timeframe_lookup_witness :
    timeframeParams "5 years" = (8, "4-5 months")
    ∧ (generate_fallback_roadmap [] ["a"] "6 months").phases.length
        = (timeframeParams "6 months").1 :=
  ⟨(timeframe_lookup "5 years").2.2.2.1 (by decide) (by decide) (by decide),
    (timeframe_lookup "6 months").2.2.2.2 [] ["a"]⟩

/-- C8: phase 0 is titled Foundation Building, the final phase Advanced
Skills & Specialization, and each interior phase `i` Skill Development
Phase `i`. -/
theorem roadmap_phase_titles (t : String) (cur req : List String) :
    (((generate_fallback_roadmap cur req t).phases.map (fun ph => ph.title)).head?
        = some "Foundation Building")
    ∧ (((generate_fallback_roadmap cur req t).phases.map (fun ph => ph.title)).getLast?
        = some "Advanced Skills & Specialization")
    ∧ ∀ i : Nat, 0 < i → i + 1 < (generate_fallback_roadmap cur req t).phases.length →
        ((generate_fallback_roadmap cur req t).phases.map (fun ph => ph.title))[i]?
          = some ("Skill Development Phase " ++ toString i) := by
  have hsplit : (timeframeParams t).1 = 3 ∨ (timeframeParams t).1 = 4
      ∨ (timeframeParams t).1 = 6 ∨ (timeframeParams t).1 = 8 := by
    unfold timeframeParams
    split_ifs <;> simp
  rcases hsplit with h | h | h | h <;>
    · simp only [generate_fallback_roadmap, List.map_map, h]
      refine ⟨rfl, rfl, fun i hi1 hi2 => ?_⟩
      simp [generate_fallback_roadmap, h] at hi2
      rw [List.getElem?_map, List.getElem?_range (by omega)]
      dsimp only [Function.comp, Option.map_some']
      rw [if_neg (by omega), if_neg (by omega)]

/-- Witness for C8 at the 6-phase timeframe and interior phase 2. -/
theorem roadmap_phase_titles_witness :
    ((generate_fallback_roadmap [] [] "2 years").phases.map (fun ph => ph.title))[2]?
      = some ("Skill Development Phase " ++ toString 2) :=
  (roadmap_phase_titles "2 years" [] []).2.2 2 (by decide) (by decide)

/-- Whitespace stripping at both ends, the model of Python's `str.strip()`
(all checked strings are ASCII, where the two agree). -/
def pyStrip (s : String) : String :=
  ⟨((s.data.dropWhile Char.isWhitespace).reverse.dropWhile Char.isWhitespace).reverse⟩

/-- Presence check `if field and field.strip():` of an optional string. -/
def populatedStripped : Option String → Bool
  | none => false
  | some s => s != "" && pyStrip s != ""

/-- Presence check `if field:` of an optional string. -/
def populatedStr : Option String → Bool
  | none => false
  | some s => s != ""

/-- Presence check `if self.age and self.age > 0:`. -/
def populatedAge : Option Int → Bool
  | none => false
  | some a => a != 0 && decide (0 < a)

/-- Presence check `if self.location and self.location != "Select State":`. -/
def populatedLocation : Option String → Bool
  | none => false
  | some s => s != "" && s != "Select State"

/-- The first eight field checks of `get_completion_percentage`, preceding
the academic-performance check. -/
def countBeforeAcad (p : StudentProfile) : Nat :=
  (if populatedStripped p.name then 1 else 0)
  + (if populatedAge p.age then 1 else 0)
  + (if populatedStripped p.email then 1 else 0)
  + (if populatedLocation p.location then 1 else 0)
  + (if p.languages ≠ [] then 1 else 0)
  + (if populatedStr p.education_level then 1 else 0)
  + (if populatedStr p.stream then 1 else 0)
  + (if populatedStripped p.institution then 1 else 0)

/-- The nine field checks following the academic-performance check. -/
def countAfterAcad (p : StudentProfile) : Nat :=
  (if p.subjects ≠ [] then 1 else 0)
  + (if p.current_skills ≠ [] then 1 else 0)
  + (if p.technical_skills ≠ [] then 1 else 0)
  + (if p.interests ≠ [] then 1 else 0)
  + (if p.personality_traits ≠ [] then 1 else 0)
  + (if p.work_environment ≠ [] then 1 else 0)
  + (if populatedStr p.salary_expectations then 1 else 0)
  + (if p.job_type_preference ≠ [] then 1 else 0)
  + (if populatedStripped p.career_goals then 1 else 0)

/-- The academic-performance check
`if self.academic_performance and float(self.academic_performance or 0) > 0:`.
A falsy field short-circuits to zero contribution; otherwise the string is
parsed — failure raises, modelled as the `.error` case — and contributes 1
exactly when the parsed value is positive. The parser `parse` stands for
Python's `float()` and is a parameter of the model. -/
def acadScore (parse : String → Option ℚ) : Option String → Except Unit Nat
  | none => .ok 0
  | some s =>
    if s = "" then .ok 0
    else
      match parse s with
      | none => .error ()
      | some v => .ok (if 0 < v then 1 else 0)

/-- `get_completion_percentage`: the 18 field checks summed in source order
and turned into `(completed_fields / 18) * 100`, threaded through `Except`
for the possible `float()` exception. -/
def get_completion_percentage (parse : String → Option ℚ) (p : StudentProfile) :
    Except Unit ℚ :=
  (acadScore parse p.academic_performance).map
    (fun a => ((countBeforeAcad p + a + countAfterAcad p : Nat) : ℚ) / 18 * 100)

/-- All 18 designated fields populated per the field-specific presence rules
(the academic-performance rule under the model's parser). -/
def allFieldsPopulated (parse : String → Option ℚ) (p : StudentProfile) : Prop :=
  populatedStripped p.name = true
  ∧ populatedAge p.age = true
  ∧ populatedStripped p.email = true
  ∧ populatedLocation p.location = true
  ∧ p.languages ≠ []
  ∧ populatedStr p.education_level = true
  ∧ populatedStr p.stream = true
  ∧ populatedStripped p.institution = true
  ∧ (∃ s v, p.academic_performance = some s ∧ s ≠ "" ∧ parse s = some v ∧ 0 < v)
  ∧ p.subjects ≠ []
  ∧ p.current_skills ≠ []
  ∧ p.technical_skills ≠ []
  ∧ p.interests ≠ []
  ∧ p.personality_traits ≠ []
  ∧ p.work_environment ≠ []
  ∧ populatedStr p.salary_expectations = true
  ∧ p.job_type_preference ≠ []
  ∧ populatedStripped p.career_goals = true

/-- C9: under the invariant that a present academic-performance string
parses, the calculator returns (no exception) a value in `[0, 100]`; it
returns 0 on the default profile and 100 when all 18 fields are populated. -/
theorem completion_safe_and_extremes (parse : String → Option ℚ) (p : StudentProfile)
    (hinv : ∀ s, p.academic_performance = some s → s ≠ "" → (parse s).isSome) :
    (∃ q, get_completion_percentage parse p = .ok q ∧ 0 ≤ q ∧ q ≤ 100)
    ∧ get_completion_percentage parse defaultProfile = .ok 0
    ∧ (allFieldsPopulated parse p → get_completion_percentage parse p = .ok 100) := by
  have hacad : ∃ a, acadScore parse p.academic_performance = .ok a ∧ a ≤ 1 := by
    cases hap : p.academic_performance with
    | none => exact ⟨0, rfl, by norm_num⟩
    | some s =>
      by_cases hs : s = ""
      · subst hs
        exact ⟨0, by simp [acadScore], by norm_num⟩
      · have hsome := hinv s hap hs
        cases hps : parse s with
        | none => rw [hps] at hsome; simp at hsome
        | some v =>
          refine ⟨if 0 < v then 1 else 0, by simp [acadScore, hs, hps], ?_⟩
          split_ifs <;> norm_num
  obtain ⟨a, hok, ha1⟩ := hacad
  have hb : countBeforeAcad p ≤ 8 := by
    unfold countBeforeAcad; split_ifs <;> omega
  have hf : countAfterAcad p ≤ 9 := by
    unfold countAfterAcad; split_ifs <;> omega
  refine ⟨⟨((countBeforeAcad p + a + countAfterAcad p : Nat) : ℚ) / 18 * 100, ?_, ?_, ?_⟩,
      ?_, ?_⟩
  · simp [get_completion_percentage, hok, Except.map]
  · positivity
  · have hc : ((countBeforeAcad p + a + countAfterAcad p : Nat) : ℚ) ≤ 18 := by
      have : countBeforeAcad p + a + countAfterAcad p ≤ 18 := by omega
      exact_mod_cast this
    have hc0 : (0 : ℚ) ≤ ((countBeforeAcad p + a + countAfterAcad p : Nat) : ℚ) := by
      positivity
    linarith
  · norm_num [get_completion_percentage, acadScore, defaultProfile, countBeforeAcad,
      countAfterAcad, populatedStripped, populatedAge, populatedLocation, populatedStr,
      Except.map]
  · intro hall
    obtain ⟨h1, h2, h3, h4, h5, h6, h7, h8, ⟨s, v, hap, hs, hps, hv⟩,
      h9, h10, h11, h12, h13, h14, h15, h16, h17⟩ := hall
    have hbe : countBeforeAcad p = 8 := by
      simp [countBeforeAcad, h1, h2, h3, h4, h5, h6, h7, h8]
    have hfe : countAfterAcad p = 9 := by
      simp [countAfterAcad, h9, h10, h11, h12, h13, h14, h15, h16, h17]
    have hac : acadScore parse p.academic_performance = .ok 1 := by
      rw [hap]; simp [acadScore, hs, hps, hv]
    rw [get_completion_percentage, hac, hbe, hfe]
    norm_num [Except.map]

/-- A profile with every designated field populated, for the witnesses. -/
def fullProfile : StudentProfile :=
  { name := some "Asha"
    age := some 21
    email := some "asha@example.com"
    phone := some "9999999999"
    location := some "Telangana"
    languages := ["English"]
    education_level := some "Undergraduate"
    stream := some "Engineering"
    institution := some "IIT Hyderabad"
    academic_performance := some "85"
    subjects := ["Mathematics"]
    current_skills := ["Programming"]
    technical_skills := ["Python"]
    interests := ["Technology"]
    personality_traits := ["Curious"]
    work_environment := ["Remote"]
    salary_expectations := some "10 LPA"
    job_type_preference := ["Full-time"]
    location_preference := ["Hyderabad"]
    career_goals := some "Build reliable systems" }

/-- Witness for C9 at a parser sending every string to 85 and the fully
populated profile. -/
theorem completion_safe_and_extremes_witness :
    (∃ q, get_completion_percentage (fun _ => some 85) fullProfile = .ok q
      ∧ 0 ≤ q ∧ q ≤ 100)
    ∧ get_completion_percentage (fun _ => some 85) defaultProfile = .ok 0
    ∧ get_completion_percentage (fun _ => some 85) fullProfile = .ok 100 := by
  have h := completion_safe_and_extremes (fun _ => some 85) fullProfile
    (fun s _ _ => rfl)
  exact ⟨h.1, h.2.1, h.2.2 ⟨by decide, by decide, by decide, by decide, by decide,
    by decide, by decide, by decide, ⟨"85", 85, rfl, by decide, rfl, by norm_num⟩,
    by decide, by decide, by decide, by decide, by decide, by decide, by decide,
    by decide, by decide⟩⟩

/-- C10: the completion percentage never reads `phone` or
`location_preference` — profiles equal outside those two fields get equal
results, whatever the parser. -/
theorem completion_ignores_phone_and_location_preference
    (parse : String → Option ℚ) (p : StudentProfile)
    (ph ph' : Option String) (lp lp' : List String) :
    get_completion_percentage parse { p with phone := ph, location_preference := lp }
      = get_completion_percentage parse { p with phone := ph', location_preference := lp' } :=
  rfl
